import Mathlib

/-!
Shallow embedding of the plylist playlist manager (Python) in Lean 4,
together with proofs about its data model and operations.

Modelling conventions:
* Python `Optional[str]` becomes `Option String`; Python truthiness of an
  optional string (`if s:`) is `optStrTruthy` (false for `None` and `""`).
* Python `dict` fields (`platform_ids`, `metadata`) become insertion-ordered
  association lists `List (String × String)`, with `updateAssoc` modelling
  `d[k] = v` (in-place update when the key exists, append otherwise).
* Timestamps produced by `datetime.now(...)` become `Nat` clock values that
  the mutating operations receive explicitly as a parameter `t`.
* The storage collaborator (`JSONStorage`) becomes a pure association list
  `Store` from playlist id to playlist; `save` always succeeds, as the
  Python version does absent I/O errors.
* Generated UUIDs become explicit fresh-identifier parameters.
-/

/-- Python truthiness of an `Optional[str]`: `None` and `""` are falsy. -/
def optStrTruthy : Option String → Bool
  | none => false
  | some s => !s.isEmpty

/-- `d[k] = v` on an insertion-ordered Python dict modelled as an
association list: replace in place if present, append otherwise. -/
def updateAssoc (m : List (String × String)) (k v : String) :
    List (String × String) :=
  if m.any (fun kv => kv.1 == k) then
    m.map (fun kv => if kv.1 == k then (k, v) else kv)
  else
    m ++ [(k, v)]

/-- Lookup on an association list, modelling `d.get(k)`. -/
def lookupAssoc (m : List (String × String)) (k : String) : Option String :=
  (m.find? (fun kv => kv.1 == k)).map (fun kv => kv.2)

/-- `plylist.models.track.Track`: the dataclass fields, with `metadata`
restricted to string values (its content is opaque to all operations). -/
structure Track where
  title : String
  artist : String
  album : Option String := none
  duration_ms : Option Int := none
  isrc : Option String := none
  platform_ids : List (String × String) := []
  track_id : String := ""
  added_at : String := ""
  additional_artists : List String := []
  metadata : List (String × String) := []
  deriving Repr, DecidableEq

/-- Python `str.lower()` (modelled on its ASCII fragment), computed on
the underlying character list so it reduces in the kernel. -/
def pyLower (s : String) : String := ⟨s.data.map Char.toLower⟩

/-- Python `str.strip()`: drop whitespace from both ends. -/
def pyStrip (s : String) : String :=
  ⟨((s.data.dropWhile Char.isWhitespace).reverse.dropWhile
      Char.isWhitespace).reverse⟩

/-- The normalisation `Track.matches` applies to titles and artists:
`s.lower().strip()`. -/
def normStr (s : String) : String := pyStrip (pyLower s)

/-- `Track.matches(self, other, strict)` (src/plylist/models/track.py,
lines 80-107): if both ISRCs are truthy, compare them; otherwise compare
lowercased, stripped titles and artists (both the strict and the
non-strict branch return the same conjunction). -/
def Track.matches (self other : Track) (strict : Bool) : Bool :=
  if optStrTruthy self.isrc && optStrTruthy other.isrc then
    self.isrc.getD "" == other.isrc.getD ""
  else
    let title_match := normStr self.title == normStr other.title
    let artist_match := normStr self.artist == normStr other.artist
    if strict then
      title_match && artist_match
    else
      title_match && artist_match

/-- The dictionary form of a track, as produced by
`Track.to_dict` (`dataclasses.asdict`): one entry per field. -/
structure TrackDict where
  title : String
  artist : String
  album : Option String
  duration_ms : Option Int
  isrc : Option String
  platform_ids : List (String × String)
  track_id : String
  added_at : String
  additional_artists : List String
  metadata : List (String × String)
  deriving Repr, DecidableEq

/-- `Track.to_dict`: `asdict(self)`. -/
def Track.to_dict (t : Track) : TrackDict :=
  ⟨t.title, t.artist, t.album, t.duration_ms, t.isrc, t.platform_ids,
   t.track_id, t.added_at, t.additional_artists, t.metadata⟩

/-- `Track.from_dict`: `cls(**data)` — every field is taken from the
dictionary (defaults are not consulted since `asdict` emits all keys). -/
def Track.from_dict (d : TrackDict) : Track :=
  ⟨d.title, d.artist, d.album, d.duration_ms, d.isrc, d.platform_ids,
   d.track_id, d.added_at, d.additional_artists, d.metadata⟩

/-- `plylist.models.playlist.Playlist`: the dataclass fields.
Timestamps are modelled as `Nat` clock values. -/
structure Playlist where
  name : String
  description : Option String := none
  tracks : List Track := []
  playlist_id : String := ""
  created_at : Nat := 0
  updated_at : Nat := 0
  platform_ids : List (String × String) := []
  metadata : List (String × String) := []
  tags : List String := []
  deriving Repr, DecidableEq

/-- `Playlist._update_timestamp`: set `updated_at` to the current clock
value `t` (`datetime.now(timezone.utc)`). -/
def Playlist.updateTimestamp (p : Playlist) (t : Nat) : Playlist :=
  { p with updated_at := t }

/-- `Playlist.add_track`: append and refresh the timestamp. -/
def Playlist.add_track (p : Playlist) (tr : Track) (t : Nat) : Playlist :=
  ({ p with tracks := p.tracks ++ [tr] }).updateTimestamp t

/-- `Playlist.remove_track`: filter out every track with the given id;
refresh the timestamp and report `True` only if the length shrank. -/
def Playlist.remove_track (p : Playlist) (tid : String) (t : Nat) :
    Playlist × Bool :=
  let initial_length := p.tracks.length
  let p' := { p with tracks := p.tracks.filter (fun tr => tr.track_id != tid) }
  if p'.tracks.length < initial_length then
    (p'.updateTimestamp t, true)
  else
    (p', false)

/-- `Playlist.move_track`: when both indices are inside `[0, len)`, pop
the track at `from_index` and insert it at `to_index` (an index into the
list after the pop, exactly as the Python `list.insert` receives it), then
refresh the timestamp; otherwise leave the playlist alone and report
`False`. Indices are `Int` because Python callers may pass negatives. -/
def Playlist.move_track (p : Playlist) (from_index to_index : Int)
    (t : Nat) : Playlist × Bool :=
  if 0 ≤ from_index ∧ from_index < p.tracks.length ∧
      0 ≤ to_index ∧ to_index < p.tracks.length then
    match p.tracks.get? from_index.toNat with
    | some tr =>
      let without := p.tracks.take from_index.toNat ++
        p.tracks.drop (from_index.toNat + 1)
      let newTracks := without.take to_index.toNat ++
        tr :: without.drop to_index.toNat
      (({ p with tracks := newTracks }).updateTimestamp t, true)
    | none => (p, false)
  else
    (p, false)

/-- `Playlist.add_platform_id`: `platform_ids[platform] = platform_id`
followed by a timestamp refresh. -/
def Playlist.add_platform_id (p : Playlist) (platform pid : String)
    (t : Nat) : Playlist :=
  ({ p with platform_ids := updateAssoc p.platform_ids platform pid
   }).updateTimestamp t

/-- `Playlist.get_platform_id`: `platform_ids.get(platform)`. -/
def Playlist.get_platform_id (p : Playlist) (platform : String) :
    Option String :=
  lookupAssoc p.platform_ids platform

/-- `Playlist.add_tag`: append the tag and refresh the timestamp only
when it is not already present. -/
def Playlist.add_tag (p : Playlist) (tag : String) (t : Nat) : Playlist :=
  if p.tags.contains tag then p
  else ({ p with tags := p.tags ++ [tag] }).updateTimestamp t

/-- Python `list.remove`: delete the first occurrence. -/
def removeFirst : List String → String → List String
  | [], _ => []
  | x :: xs, y => if x == y then xs else x :: removeFirst xs y

/-- `Playlist.remove_tag`: remove the first occurrence when present,
refresh the timestamp and report success. -/
def Playlist.remove_tag (p : Playlist) (tag : String) (t : Nat) :
    Playlist × Bool :=
  if p.tags.contains tag then
    (({ p with tags := removeFirst p.tags tag }).updateTimestamp t, true)
  else
    (p, false)

/-- The dictionary form of a playlist, as produced by
`Playlist.to_dict`: one entry per field, tracks as track dictionaries. -/
structure PlaylistDict where
  name : String
  description : Option String
  tracks : List TrackDict
  playlist_id : String
  created_at : Nat
  updated_at : Nat
  platform_ids : List (String × String)
  metadata : List (String × String)
  tags : List String
  deriving Repr, DecidableEq

/-- `Playlist.to_dict`: `asdict(self)` with each track replaced by its
own dictionary form. -/
def Playlist.to_dict (p : Playlist) : PlaylistDict :=
  ⟨p.name, p.description, p.tracks.map Track.to_dict, p.playlist_id,
   p.created_at, p.updated_at, p.platform_ids, p.metadata, p.tags⟩

/-- `Playlist.from_dict`: pop the track dictionaries, build the playlist
from the remaining fields, then restore the tracks via
`Track.from_dict`. -/
def Playlist.from_dict (d : PlaylistDict) : Playlist :=
  { name := d.name, description := d.description,
    tracks := d.tracks.map Track.from_dict, playlist_id := d.playlist_id,
    created_at := d.created_at, updated_at := d.updated_at,
    platform_ids := d.platform_ids, metadata := d.metadata, tags := d.tags }

/-- The storage collaborator of the manager, modelled as an association list
from playlist id to playlist (the JSON backend keyed by `playlist_id`). -/
abbrev Store := List (String × Playlist)

/-- `storage.load(playlist_id)`. -/
def store_load (s : Store) (pid : String) : Option Playlist :=
  (List.find? (fun kv => kv.1 == pid) s).map (fun kv => kv.2)

/-- `storage.save(playlist)`: overwrite the entry keyed by the playlist id,
or append a new one. Always succeeds in this pure model. -/
def store_save (s : Store) (p : Playlist) : Store :=
  if List.any s (fun kv => kv.1 == p.playlist_id) then
    List.map (fun kv : String × Playlist =>
      if kv.1 == p.playlist_id then (p.playlist_id, p) else kv) s
  else
    s ++ [(p.playlist_id, p)]

/-- Python `a or b` on an optional string: `b` when `a` is `None` or
empty. -/
def pyOrStr (a : Option String) (b : String) : String :=
  match a with
  | none => b
  | some s => if s.isEmpty then b else s

/-- `PlaylistManager.create_playlist`: build a playlist with the given
name, description and `tags or []`, save it, and return it. `newId` is
the generated UUID and `t` the construction time. -/
def create_playlist (s : Store) (name : String) (description : Option String)
    (tags : Option (List String)) (newId : String) (t : Nat) :
    Store × Playlist :=
  let p : Playlist :=
    { name := name, description := description, tracks := [],
      playlist_id := newId, created_at := t, updated_at := t,
      platform_ids := [], metadata := [], tags := tags.getD [] }
  (store_save s p, p)

/-- `PlaylistManager.rename_playlist`: load, set `name`, save. Note that
it does not refresh `updated_at`. -/
def rename_playlist (s : Store) (pid newName : String) : Store × Bool :=
  match store_load s pid with
  | none => (s, false)
  | some p => (store_save s { p with name := newName }, true)

/-- `PlaylistManager.move_track`: load, delegate to
`Playlist.move_track`, and save only on success. -/
def manager_move_track (s : Store) (pid : String) (fi ti : Int) (t : Nat) :
    Store × Bool :=
  match store_load s pid with
  | none => (s, false)
  | some p =>
    let r := p.move_track fi ti t
    if r.2 then (store_save s r.1, true) else (s, false)

/-- `PlaylistManager.duplicate_playlist`: load the original and save a
new playlist with name `new_name or "Copy of {original.name}"`, the same
description, each track round-tripped through its dictionary form, a
copy of the tags, and a fresh playlist id `newId`. -/
def duplicate_playlist (s : Store) (pid : String) (new_name : Option String)
    (newId : String) (t : Nat) : Store × Option Playlist :=
  match store_load s pid with
  | none => (s, none)
  | some original =>
    let dup : Playlist :=
      { name := pyOrStr new_name ("Copy of " ++ original.name),
        description := original.description,
        tracks := original.tracks.map
          (fun tr => Track.from_dict (Track.to_dict tr)),
        playlist_id := newId, created_at := t, updated_at := t,
        platform_ids := [], metadata := [], tags := original.tags }
    (store_save s dup, some dup)

/-- The duplicate-detection key of `PlaylistManager.merge_playlists`:
`f"{track.title.lower()}|{track.artist.lower()}"`. -/
def trackHash (tr : Track) : String :=
  pyLower tr.title ++ "|" ++ pyLower tr.artist

/-- The inner `for track in playlist.tracks` loop of `merge_playlists`,
threading the accumulated track list and the seen-hash set. -/
def mergeLoop (remove_duplicates : Bool) :
    List Track → List Track × List String → List Track × List String
  | [], acc => acc
  | tr :: rest, (all, seen) =>
    if remove_duplicates then
      let h := trackHash tr
      if seen.contains h then
        mergeLoop remove_duplicates rest (all, seen)
      else
        mergeLoop remove_duplicates rest
          (all ++ [Track.from_dict (Track.to_dict tr)], seen ++ [h])
    else
      mergeLoop remove_duplicates rest
        (all ++ [Track.from_dict (Track.to_dict tr)], seen)

/-- The outer `for pid in playlist_ids` loop of `merge_playlists`:
skip ids that fail to load, otherwise run the inner loop. -/
def mergeOuter (s : Store) (remove_duplicates : Bool) :
    List String → List Track × List String → List Track × List String
  | [], acc => acc
  | pid :: rest, acc =>
    match store_load s pid with
    | none => mergeOuter s remove_duplicates rest acc
    | some p =>
      mergeOuter s remove_duplicates rest
        (mergeLoop remove_duplicates p.tracks acc)

/-- `PlaylistManager.merge_playlists`: run both loops starting from empty
accumulators, wrap the resulting tracks in a new playlist and save it. -/
def merge_playlists (s : Store) (playlist_ids : List String)
    (new_name : String) (remove_duplicates : Bool) (newId : String)
    (t : Nat) : Store × Option Playlist :=
  let all_tracks := (mergeOuter s remove_duplicates playlist_ids ([], [])).1
  let merged : Playlist :=
    { name := new_name, description := none, tracks := all_tracks,
      playlist_id := newId, created_at := t, updated_at := t,
      platform_ids := [], metadata := [], tags := [] }
  (store_save s merged, some merged)

/-- Modelled from the spec, for comparison with `merge_playlists`: keep
only the first occurrence of each composite key across the whole merge,
threading one seen set. -/
def specDedup : List Track → List String → List Track
  | [], _ => []
  | tr :: rest, seen =>
    if seen.contains (trackHash tr) then specDedup rest seen
    else tr :: specDedup rest (seen ++ [trackHash tr])

/-- The keys the dedup pass adds to the seen set while traversing a
track list. -/
def specKeys : List Track → List String → List String
  | [], _ => []
  | tr :: rest, seen =>
    if seen.contains (trackHash tr) then specKeys rest seen
    else trackHash tr :: specKeys rest (seen ++ [trackHash tr])

/-- The concatenation, in listed order, of the tracks of every source
playlist id that loads successfully. -/
def concatLoadedTracks (s : Store) : List String → List Track
  | [] => []
  | pid :: rest =>
    match store_load s pid with
    | none => concatLoadedTracks s rest
    | some p => p.tracks ++ concatLoadedTracks s rest

/-- The result of one `sync_playlist_to_platform` call, together with
how often the platform `create_playlist` and `update_playlist`
endpoints were invoked during it. -/
structure SyncResult where
  success : Bool
  playlist : Playlist
  createCalls : Nat
  updateCalls : Nat
  deriving Repr, DecidableEq

/-- `PlatformBase.sync_playlist_to_platform`: when the playlist id for
this platform is truthy, call `update_playlist` once; otherwise call
`create_playlist` once and, if it returns a truthy id, attach it. The
platform endpoints are parameters `createFn` / `updateFn`. -/
def sync_playlist_to_platform (platform_name : String)
    (createFn : Playlist → Option String) (updateFn : Playlist → Bool)
    (p : Playlist) (t : Nat) : SyncResult :=
  let platform_id := p.get_platform_id platform_name
  if optStrTruthy platform_id then
    { success := updateFn p, playlist := p,
      createCalls := 0, updateCalls := 1 }
  else
    match createFn p with
    | some new_id =>
      if new_id.isEmpty then
        { success := false, playlist := p,
          createCalls := 1, updateCalls := 0 }
      else
        { success := true,
          playlist := p.add_platform_id platform_name new_id t,
          createCalls := 1, updateCalls := 0 }
    | none =>
      { success := false, playlist := p, createCalls := 1, updateCalls := 0 }

/-- The store holding only the playlist that the C4 failing input renames:
its `updated_at` is 5. -/
def c4Store : Store :=
  [("pl1", { name := "Old", playlist_id := "pl1",
             created_at := 3, updated_at := 5 })]

/-- A platform create endpoint that always returns the id "NEW". -/
def c3CreateFn : Playlist → Option String := fun _ => some "NEW"

/-- A platform update endpoint that always succeeds. -/
def c3UpdateFn : Playlist → Bool := fun _ => true

/-- A playlist whose "spotify" platform id is present but empty — the
key exists, yet Python truthiness treats the value as absent. -/
def c3EmptyIdPlaylist : Playlist :=
  { name := "P", playlist_id := "pl", platform_ids := [("spotify", "")] }

/-- A playlist already carrying the non-empty "spotify" id "SID". -/
def c3SyncedPlaylist : Playlist :=
  { name := "P", playlist_id := "pl2", platform_ids := [("spotify", "SID")] }

/-- First track of the C5 merge instance: ("Song", "Artist") in P1. -/
def c5t1 : Track := { title := "Song", artist := "Artist", track_id := "t1" }

/-- Duplicate-by-content track of the C5 merge instance, in P2. -/
def c5t2 : Track := { title := "Song", artist := "Artist", track_id := "t2" }

/-- Second distinct track of the C5 merge instance, in P2. -/
def c5t3 : Track :=
  { title := "Other", artist := "Artist2", track_id := "t3" }

/-- The two-playlist store of the C5 merge instance. -/
def c5Store : Store :=
  [("p1", { name := "P1", playlist_id := "p1", tracks := [c5t1] }),
   ("p2", { name := "P2", playlist_id := "p2", tracks := [c5t2, c5t3] })]

/-- A stored three-track playlist used to instantiate C6. -/
def c6Original : Playlist :=
  { name := "Road Trip", playlist_id := "p1",
    tracks := [{ title := "A", artist := "X", track_id := "t1" },
               { title := "B", artist := "Y", track_id := "t2" },
               { title := "C", artist := "Z", track_id := "t3" }] }

/-- The one-playlist store used to instantiate C6. -/
def c6Store : Store := [("p1", c6Original)]

/-- C1: if both tracks carry a non-empty ISRC, `matches` is exact
case-sensitive ISRC equality, regardless of every other field. -/
theorem matches_isrc_iff (A B : Track) (a b : String) (strict : Bool)
    (hA : A.isrc = some a) (ha : a ≠ "") (hB : B.isrc = some b) (hb : b ≠ "") :
    A.matches B strict = (a == b) := by
  unfold Track.matches
  rw [hA, hB]
  simp [optStrTruthy, String.isEmpty_iff, ha, hb]

/-- Witness for C1 at concrete tracks with equal ISRCs but different
titles and artists. -/
theorem matches_isrc_iff_witness :
    Track.matches
      { title := "X", artist := "Y", isrc := some "US1234567890" }
      { title := "Z", artist := "W", isrc := some "US1234567890" } false
      = true := by
  rw [matches_isrc_iff _ _ "US1234567890" "US1234567890" false rfl
    (by decide) rfl (by decide)]
  decide

/-- C2: if at least one side has no (or an empty) ISRC, `matches` is the
conjunction of lowercased-trimmed title equality and lowercased-trimmed
artist equality. -/
theorem matches_no_isrc (A B : Track)
    (h : optStrTruthy A.isrc = false ∨ optStrTruthy B.isrc = false) :
    A.matches B false =
      ((normStr A.title == normStr B.title) &&
       (normStr A.artist == normStr B.artist)) := by
  unfold Track.matches
  rcases h with h | h <;> simp [h]

/-- Witness for C2 at concrete tracks differing only by case and
surrounding whitespace. -/
theorem matches_no_isrc_witness :
    Track.matches
      { title := "  Hello ", artist := "ABBA", isrc := none }
      { title := "hello", artist := " abba", isrc := some "" } false
      = true := by
  rw [matches_no_isrc _ _ (Or.inl (by decide))]
  decide

/-- C10: the `strict` flag has no effect on `Track.matches`: both
branches of the final conditional return the same conjunction. -/
theorem matches_strict_irrelevant (A B : Track) (s₁ s₂ : Bool) :
    A.matches B s₁ = A.matches B s₂ := by
  unfold Track.matches
  cases s₁ <;> cases s₂ <;> rfl

/-- Round-tripping a track through its dictionary form is the
identity: `cls(**asdict(t))` restores every field. -/
theorem track_roundtrip (tr : Track) :
    Track.from_dict (Track.to_dict tr) = tr := rfl

/-- C7: deserialising the serialised dictionary form of a playlist restores
every field — tracks with all their fields in order, tags, platform
ids — i.e. the round trip is the identity. -/
theorem playlist_roundtrip (p : Playlist) :
    Playlist.from_dict (Playlist.to_dict p) = p := by
  have h : ∀ l : List Track,
      List.map Track.from_dict (List.map Track.to_dict l) = l := by
    intro l
    induction l with
    | nil => rfl
    | cons x xs ih => simp [ih, track_roundtrip]
  cases p
  simp [Playlist.from_dict, Playlist.to_dict, h]

/-- C8: `Playlist.move_track` with either index outside `[0, len)`
returns the playlist unchanged (tracks, order and `updated_at`
included) and reports failure. -/
theorem move_track_out_of_range (p : Playlist) (fi ti : Int) (t : Nat)
    (h : fi < 0 ∨ (p.tracks.length : Int) ≤ fi ∨
         ti < 0 ∨ (p.tracks.length : Int) ≤ ti) :
    p.move_track fi ti t = (p, false) := by
  have hneg : ¬(0 ≤ fi ∧ fi < (p.tracks.length : Int) ∧
      0 ≤ ti ∧ ti < (p.tracks.length : Int)) := by
    rintro ⟨h1, h2, h3, h4⟩
    rcases h with h | h | h | h <;> omega
  simp [Playlist.move_track, hneg]

/-- Witness for C8: moving from index 5 in a one-track playlist fails
and changes nothing. -/
theorem move_track_out_of_range_witness :
    Playlist.move_track
      { name := "P", playlist_id := "pl",
        tracks := [{ title := "A", artist := "B", track_id := "t1" }],
        updated_at := 4 } 5 0 99
    = ({ name := "P", playlist_id := "pl",
         tracks := [{ title := "A", artist := "B", track_id := "t1" }],
         updated_at := 4 }, false) :=
  move_track_out_of_range _ 5 0 99 (by decide)

/-- C4 (code bug): `PlaylistManager.rename_playlist` succeeds and
persists the new name, but leaves `updated_at` untouched — the rename
path never calls `_update_timestamp`, unlike every other mutator. -/
theorem rename_playlist_updated_at_unchanged :
    (rename_playlist c4Store "pl1" "New Name").2 = true ∧
    ((store_load (rename_playlist c4Store "pl1" "New Name").1 "pl1").map
      Playlist.name) = some "New Name" ∧
    ((store_load (rename_playlist c4Store "pl1" "New Name").1 "pl1").map
      Playlist.updated_at) = some 5 := by
  decide

/-- C9 counterexample: `create_playlist` stores the caller tag list
verbatim, so a duplicated input tag survives into the playlist. -/
theorem create_playlist_keeps_duplicate_tags :
    ((create_playlist [] "My" none (some ["a", "a"]) "p1" 0).2).tags
      = ["a", "a"] ∧
    ¬ ((create_playlist [] "My" none (some ["a", "a"]) "p1" 0).2).tags.Nodup
    := by
  decide

/-- `removeFirst` yields a sublist of its input. -/
theorem removeFirst_sublist (l : List String) (y : String) :
    List.Sublist (removeFirst l y) l := by
  induction l with
  | nil => simp [removeFirst]
  | cons x xs ih =>
    by_cases h : x == y
    · simp only [removeFirst, h, if_true]
      exact List.sublist_cons_self x xs
    · simpa [removeFirst, h] using ih.cons₂ x

/-- C9 (amended): tag collections that start duplicate-free stay
duplicate-free and in insertion order under `add_tag` and `remove_tag`,
and `create_playlist` yields duplicate-free tags exactly when the tag
list it is handed (defaulting to `[]`) is duplicate-free — it stores
that list verbatim. -/
theorem tags_nodup_invariant :
    (∀ (p : Playlist) (tag : String) (t : Nat), p.tags.Nodup →
      ((p.add_tag tag t).tags.Nodup ∧
       ((p.add_tag tag t).tags = p.tags ∨
        (p.add_tag tag t).tags = p.tags ++ [tag]))) ∧
    (∀ (p : Playlist) (tag : String) (t : Nat), p.tags.Nodup →
      (((p.remove_tag tag t).1).tags.Nodup ∧
       List.Sublist ((p.remove_tag tag t).1).tags p.tags)) ∧
    (∀ (s : Store) (nm : String) (d : Option String)
       (tags : Option (List String)) (newId : String) (t : Nat),
      (tags.getD []).Nodup →
      ((create_playlist s nm d tags newId t).2).tags.Nodup) := by
  refine ⟨?_, ?_, ?_⟩
  · intro p tag t hnd
    by_cases h : tag ∈ p.tags
    · simp [Playlist.add_tag, h, hnd]
    · simp [Playlist.add_tag, h, Playlist.updateTimestamp,
        List.nodup_append, hnd]
  · intro p tag t hnd
    by_cases h : tag ∈ p.tags
    · constructor
      · simpa [Playlist.remove_tag, h, Playlist.updateTimestamp] using
          hnd.sublist (removeFirst_sublist p.tags tag)
      · simpa [Playlist.remove_tag, h, Playlist.updateTimestamp] using
          removeFirst_sublist p.tags tag
    · constructor
      · simpa [Playlist.remove_tag, h] using hnd
      · simp [Playlist.remove_tag, h]
  · intro s nm d tags newId t hnd
    simpa [create_playlist] using hnd

/-- Witness for the amended C9 theorem: adding a fresh tag to a playlist
with duplicate-free tags keeps them duplicate-free. -/
theorem tags_nodup_invariant_witness :
    ((({ name := "P", playlist_id := "q", tags := ["a"] } :
        Playlist).add_tag "b" 7).tags.Nodup) :=
  (tags_nodup_invariant.1
    { name := "P", playlist_id := "q", tags := ["a"] } "b" 7 (by decide)).1

/-- C3 counterexample: a playlist that carries a platform identifier for
"spotify" — the empty string — is nevertheless sent down the create
path: `create_playlist` is invoked (not `update_playlist`) and the
platform id changes. -/
theorem sync_empty_platform_id_creates :
    (c3EmptyIdPlaylist.get_platform_id "spotify").isSome = true ∧
    (sync_playlist_to_platform "spotify" c3CreateFn c3UpdateFn
      c3EmptyIdPlaylist 1).createCalls = 1 ∧
    (sync_playlist_to_platform "spotify" c3CreateFn c3UpdateFn
      c3EmptyIdPlaylist 1).updateCalls = 0 ∧
    (sync_playlist_to_platform "spotify" c3CreateFn c3UpdateFn
      c3EmptyIdPlaylist 1).playlist.get_platform_id "spotify"
      = some "NEW" := by
  decide

/-- C3 (amended): for a playlist that already carries a NON-EMPTY
platform identifier, two successive syncs each invoke `update_playlist`
exactly once, never invoke `create_playlist`, and leave the platform
identifier unchanged. -/
theorem sync_twice_updates_only (pname : String)
    (createFn : Playlist → Option String) (updateFn : Playlist → Bool)
    (p : Playlist) (pid : String) (t₁ t₂ : Nat)
    (hpid : p.get_platform_id pname = some pid) (hne : pid ≠ "") :
    (sync_playlist_to_platform pname createFn updateFn p t₁).createCalls
      = 0 ∧
    (sync_playlist_to_platform pname createFn updateFn p t₁).updateCalls
      = 1 ∧
    (sync_playlist_to_platform pname createFn updateFn
      (sync_playlist_to_platform pname createFn updateFn p t₁).playlist
      t₂).createCalls = 0 ∧
    (sync_playlist_to_platform pname createFn updateFn
      (sync_playlist_to_platform pname createFn updateFn p t₁).playlist
      t₂).updateCalls = 1 ∧
    (sync_playlist_to_platform pname createFn updateFn
      (sync_playlist_to_platform pname createFn updateFn p t₁).playlist
      t₂).playlist.get_platform_id pname = some pid := by
  have hemp : pid.isEmpty = false := by
    rw [Bool.eq_false_iff]
    intro hb
    rw [String.isEmpty_iff] at hb
    exact hne hb
  have h1 : sync_playlist_to_platform pname createFn updateFn p t₁ =
      { success := updateFn p, playlist := p,
        createCalls := 0, updateCalls := 1 } := by
    simp [sync_playlist_to_platform, hpid, optStrTruthy, hemp]
  have h2 : sync_playlist_to_platform pname createFn updateFn p t₂ =
      { success := updateFn p, playlist := p,
        createCalls := 0, updateCalls := 1 } := by
    simp [sync_playlist_to_platform, hpid, optStrTruthy, hemp]
  have hp1 : (sync_playlist_to_platform pname createFn updateFn
      p t₁).playlist = p := by
    rw [h1]
  refine ⟨?_, ?_, ?_, ?_, ?_⟩
  · rw [h1]
  · rw [h1]
  · rw [hp1, h2]
  · rw [hp1, h2]
  · rw [hp1, h2]
    exact hpid

/-- Witness for the amended C3 theorem at a playlist carrying the
non-empty "spotify" id "SID". -/
theorem sync_twice_updates_only_witness :
    (sync_playlist_to_platform "spotify" c3CreateFn c3UpdateFn
      c3SyncedPlaylist 1).createCalls = 0 ∧
    (sync_playlist_to_platform "spotify" c3CreateFn c3UpdateFn
      c3SyncedPlaylist 1).updateCalls = 1 ∧
    (sync_playlist_to_platform "spotify" c3CreateFn c3UpdateFn
      (sync_playlist_to_platform "spotify" c3CreateFn c3UpdateFn
        c3SyncedPlaylist 1).playlist 2).createCalls = 0 ∧
    (sync_playlist_to_platform "spotify" c3CreateFn c3UpdateFn
      (sync_playlist_to_platform "spotify" c3CreateFn c3UpdateFn
        c3SyncedPlaylist 1).playlist 2).updateCalls = 1 ∧
    (sync_playlist_to_platform "spotify" c3CreateFn c3UpdateFn
      (sync_playlist_to_platform "spotify" c3CreateFn c3UpdateFn
        c3SyncedPlaylist 1).playlist 2).playlist.get_platform_id "spotify"
      = some "SID" :=
  sync_twice_updates_only "spotify" c3CreateFn c3UpdateFn
    c3SyncedPlaylist "SID" 1 2 rfl (by decide)

/-- C6: duplicating a stored playlist with no explicit name yields a
playlist under the fresh identifier, with the same tracks by content in
the same order, the default name "Copy of {original name}", and every
duplicated track keeping the id of its source track. -/
theorem duplicate_playlist_spec (s : Store) (pid newId : String) (t : Nat)
    (original : Playlist) (hload : store_load s pid = some original)
    (hne : newId ≠ original.playlist_id) :
    ∃ d, (duplicate_playlist s pid none newId t).2 = some d ∧
      d.playlist_id ≠ original.playlist_id ∧
      d.tracks = original.tracks ∧
      d.name = "Copy of " ++ original.name ∧
      d.tracks.map Track.track_id = original.tracks.map Track.track_id := by
  refine ⟨{ name := pyOrStr none ("Copy of " ++ original.name),
            description := original.description,
            tracks := original.tracks.map
              (fun tr => Track.from_dict (Track.to_dict tr)),
            playlist_id := newId, created_at := t, updated_at := t,
            platform_ids := [], metadata := [], tags := original.tags },
          ?_, ?_, ?_, ?_, ?_⟩
  · simp [duplicate_playlist, hload]
  · simpa using hne
  · simp [track_roundtrip]
  · simp [pyOrStr]
  · simp [track_roundtrip]

/-- Witness for C6 at a stored three-track playlist and fresh id "p9". -/
theorem duplicate_playlist_spec_witness :
    ∃ d, (duplicate_playlist c6Store "p1" none "p9" 4).2 = some d ∧
      d.playlist_id ≠ c6Original.playlist_id ∧
      d.tracks = c6Original.tracks ∧
      d.name = "Copy of " ++ c6Original.name ∧
      d.tracks.map Track.track_id = c6Original.tracks.map Track.track_id :=
  duplicate_playlist_spec c6Store "p1" "p9" 4 c6Original rfl (by decide)

/-- The inner merge loop appends exactly the spec-level dedup result and
its keys to the running accumulators. -/
theorem mergeLoop_spec (l : List Track) :
    ∀ (all : List Track) (seen : List String),
      mergeLoop true l (all, seen) =
        (all ++ specDedup l seen, seen ++ specKeys l seen) := by
  induction l with
  | nil =>
    intro all seen
    simp [mergeLoop, specDedup, specKeys]
  | cons tr rest ih =>
    intro all seen
    by_cases h : trackHash tr ∈ seen
    · simp [mergeLoop, specDedup, specKeys, h, ih]
    · simp [mergeLoop, specDedup, specKeys, h, ih, track_roundtrip,
        List.append_assoc]

/-- Splitting the spec-level dedup over an append: the second part is
deduplicated against the seen set extended by the keys of the first part. -/
theorem specDedup_append (l₁ : List Track) :
    ∀ (l₂ : List Track) (seen : List String),
      specDedup (l₁ ++ l₂) seen =
        specDedup l₁ seen ++ specDedup l₂ (seen ++ specKeys l₁ seen) := by
  induction l₁ with
  | nil =>
    intro l₂ seen
    simp [specDedup, specKeys]
  | cons tr rest ih =>
    intro l₂ seen
    by_cases h : trackHash tr ∈ seen
    · simp [specDedup, specKeys, h, ih]
    · simp [specDedup, specKeys, h, ih, List.append_assoc]

/-- Companion to `specDedup_append` for the collected keys. -/
theorem specKeys_append (l₁ : List Track) :
    ∀ (l₂ : List Track) (seen : List String),
      specKeys (l₁ ++ l₂) seen =
        specKeys l₁ seen ++ specKeys l₂ (seen ++ specKeys l₁ seen) := by
  induction l₁ with
  | nil =>
    intro l₂ seen
    simp [specKeys]
  | cons tr rest ih =>
    intro l₂ seen
    by_cases h : trackHash tr ∈ seen
    · simp [specKeys, h, ih]
    · simp [specKeys, h, ih, List.append_assoc]

/-- The outer merge loop produces exactly the spec-level dedup of the
concatenation, in listed order, of the tracks of every id that loads. -/
theorem mergeOuter_spec (s : Store) (pids : List String) :
    ∀ (all : List Track) (seen : List String),
      mergeOuter s true pids (all, seen) =
        (all ++ specDedup (concatLoadedTracks s pids) seen,
         seen ++ specKeys (concatLoadedTracks s pids) seen) := by
  induction pids with
  | nil =>
    intro all seen
    simp [mergeOuter, concatLoadedTracks, specDedup, specKeys]
  | cons pid rest ih =>
    intro all seen
    cases hload : store_load s pid with
    | none => simp [mergeOuter, concatLoadedTracks, hload, ih]
    | some p =>
      simp [mergeOuter, concatLoadedTracks, hload, mergeLoop_spec, ih,
        specDedup_append, specKeys_append, List.append_assoc]

/-- C5: merging with deduplication concatenates the tracks of the
loadable sources in listed order and keeps only the first occurrence of
each composite lowercased title-and-artist key, with one seen set shared
across all sources; and the concrete two-playlist instance yields
exactly ("Song", "Artist") then ("Other", "Artist2"). -/
theorem merge_playlists_dedup_spec :
    (∀ (s : Store) (pids : List String) (nm newId : String) (t : Nat),
      ∃ m, (merge_playlists s pids nm true newId t).2 = some m ∧
        m.name = nm ∧
        m.tracks = specDedup (concatLoadedTracks s pids) []) ∧
    ((merge_playlists c5Store ["p1", "p2"] "M" true "m1" 0).2.map
        Playlist.tracks = some [c5t1, c5t3]) := by
  constructor
  · intro s pids nm newId t
    refine ⟨_, rfl, rfl, ?_⟩
    simp [merge_playlists, mergeOuter_spec]
  · decide
